import Mathlib

/-!
Verification of the core of `semantic-torch-ngp/nerf/renderer.py`
(class `NeRFRenderer`): depth normalization, background composition,
the run_cuda result dictionary, the occupancy-grid update
(`update_extra_state`), the inference ray-marching round loop, and the
`render` orchestrator's staged/chunked path.

Real-valued tensor entries are embedded as rationals (`ℚ`), computed
exactly.  A float division whose denominator is exactly zero does not
produce a rational number (IEEE gives NaN or Inf), so the one place the
source divides without a guard returns `Option ℚ`, with `none` standing
for the non-finite float result.

The CUDA kernels of the repository's `raymarching` extension
(`composite_rays_train_rgb`, `composite_rays`, `march_rays`, ...) are not
under `src/`; the renderer code treats their per-ray outputs (weight sum,
accumulated depth, accumulated channel values) as data, and so does this
embedding: they appear as inputs (`RayKernelOut`) or as an abstract
per-round `body` function, never as stubs of renderer code.
-/

namespace SemanticTorchNgp

/-- Per-ray output of a compositing kernel, as consumed by the renderer:
the accumulated weight sum, the accumulated (weighted) depth sum, and the
accumulated channel vector (3 entries for RGB, `semantic_class_length`
entries for the class-probability channel). -/
structure RayKernelOut where
  ws : ℚ
  depthSum : ℚ
  channels : List ℚ
deriving DecidableEq

/-- Depth normalization as written (unguarded) in `renderer.py` lines
167, 219, 265 and 318: `torch.clamp(depth - nears, min=0) / (fars - nears)`.
When `far - near = 0` the float division has a zero denominator and the
result is non-finite (0/0 = NaN, x/0 = Inf), embedded as `none`. -/
def normalizeDepth (depth near far : ℚ) : Option ℚ :=
  if far - near = 0 then none
  else some (max (depth - near) 0 / (far - near))

/-- Background color resolution, `renderer.py` lines 143-148 (and the
identical 242-247): when `bg_radius > 0` the background model's color is
used; otherwise a missing `bg_color` argument defaults to `1`. -/
def bgColorFinal (bg_radius : ℚ) (bg_color : Option ℚ) (bgModelColor : ℚ) : ℚ :=
  if 0 < bg_radius then bgModelColor else bg_color.getD 1

/-- Post-kernel processing of the RGB training path, `renderer.py` lines
164-169: `image = image + (1 - weights_sum_rgb) * bg_color` and the depth
normalization.  Returns (depth, image). -/
def raysRgbPostTrain (k : RayKernelOut) (near far bg_radius : ℚ)
    (bg_color : Option ℚ) (bgModelColor : ℚ) : Option ℚ × List ℚ :=
  (normalizeDepth k.depthSum near far,
   k.channels.map (fun c => c + (1 - k.ws) * bgColorFinal bg_radius bg_color bgModelColor))

/-- Post-loop processing of the RGB inference path, `renderer.py` lines
218-222: the same background composition and depth normalization applied
to the accumulated buffers. -/
def raysRgbPostInfer (k : RayKernelOut) (near far bg_radius : ℚ)
    (bg_color : Option ℚ) (bgModelColor : ℚ) : Option ℚ × List ℚ :=
  (normalizeDepth k.depthSum near far,
   k.channels.map (fun c => c + (1 - k.ws) * bgColorFinal bg_radius bg_color bgModelColor))

/-- Post-kernel processing of the semantic training path, `renderer.py`
lines 261-267: the background-composition lines 263-264 are commented out
in the source, so the accumulated class-probability vector is returned as
is; only the depth is normalized. -/
def raysSemanticPostTrain (k : RayKernelOut) (near far bg_radius : ℚ)
    (bg_color : Option ℚ) (bgModelColor : ℚ) : Option ℚ × List ℚ :=
  (normalizeDepth k.depthSum near far, k.channels)

/-- Post-loop processing of the semantic inference path, `renderer.py`
lines 315-322: the background-composition lines 315-317 are commented out
in the source, so the accumulated class-probability vector is returned as
is; only the depth is normalized. -/
def raysSemanticPostInfer (k : RayKernelOut) (near far bg_radius : ℚ)
    (bg_color : Option ℚ) (bgModelColor : ℚ) : Option ℚ × List ℚ :=
  (normalizeDepth k.depthSum near far, k.channels)

/-- The `results` dictionary shared by `rays_rgb` and `rays_semantic`
inside `run_cuda`.  Each field is `none` while its key is absent. -/
structure RenderResults where
  depth : Option (Option ℚ)
  image : Option (List ℚ)
  semantic : Option (List ℚ)
  weights_sum_rgb : Option ℚ
  weights_sum_semantic : Option ℚ
deriving DecidableEq

/-- The empty `results = {}` dictionary of `run_cuda`, line 338. -/
def emptyResults : RenderResults :=
  ⟨none, none, none, none, none⟩

/-- The writes `NeRFRenderer.rays_rgb` performs on the `results` dict
(lines 171, 225-226), for one ray: the training path additionally stores
`weights_sum_rgb`; both paths store `depth` and `image` computed by the
corresponding post-processing. -/
def rays_rgb (training : Bool) (res : RenderResults) (k : RayKernelOut)
    (near far bg_radius : ℚ) (bg_color : Option ℚ) (bgModelColor : ℚ) :
    RenderResults :=
  let out := if training then raysRgbPostTrain k near far bg_radius bg_color bgModelColor
             else raysRgbPostInfer k near far bg_radius bg_color bgModelColor
  { res with
    depth := some out.1
    image := some out.2
    weights_sum_rgb := if training then some k.ws else res.weights_sum_rgb }

/-- The writes `NeRFRenderer.rays_semantic` performs on the `results` dict
(lines 269, 330-331), for one ray. -/
def rays_semantic (training : Bool) (res : RenderResults) (k : RayKernelOut)
    (near far bg_radius : ℚ) (bg_color : Option ℚ) (bgModelColor : ℚ) :
    RenderResults :=
  let out := if training then raysSemanticPostTrain k near far bg_radius bg_color bgModelColor
             else raysSemanticPostInfer k near far bg_radius bg_color bgModelColor
  { res with
    depth := some out.1
    semantic := some out.2
    weights_sum_semantic := if training then some k.ws else res.weights_sum_semantic }

/-- `NeRFRenderer.run_cuda`, lines 334-343: starts from an empty dict,
runs the RGB pass, then the semantic pass, and returns the dict.  `kRgb`
and `kSem` are the compositing-kernel outputs of the two passes for the
ray; both passes recompute the same `nears`/`fars` from the same AABB. -/
def run_cuda (training : Bool) (kRgb kSem : RayKernelOut)
    (near far bg_radius : ℚ) (bg_color : Option ℚ) (bgModelColor : ℚ) :
    RenderResults :=
  rays_semantic training
    (rays_rgb training emptyResults kRgb near far bg_radius bg_color bgModelColor)
    kSem near far bg_radius bg_color bgModelColor

/-- The Python error raised at `renderer.py` line 532: the staged branch
calls `_run(rays_o[b:b+1, head:tail], rays_d[b:b+1, head:tail], **kwargs)`
but `run_cuda` (line 334) requires `semantic_class_length` as its third
positional argument, and `render`'s own signature (line 507) binds
`semantic_class_length`, so it can never be inside `**kwargs`. -/
def typeErrorMsg : String :=
  "TypeError: run_cuda missing 1 required positional argument semantic_class_length"

/-- The Python error raised inside `rays_rgb` when `cuda_ray` is false:
the buffers `density_bitfield` / `density_grid` are only registered when
`cuda_ray` is true (lines 91-96), but line 156 / 203 reads
`self.density_bitfield`. -/
def attributeErrorMsg : String :=
  "AttributeError: NeRFRenderer has no attribute density_bitfield"

/-- `run_cuda` as reachable from `render`: with `cuda_ray = false` the
marching call inside `rays_rgb` dereferences the unregistered
`density_bitfield` buffer and raises. -/
def run_cuda_checked (cuda_ray training : Bool) (kRgb kSem : RayKernelOut)
    (near far bg_radius : ℚ) (bg_color : Option ℚ) (bgModelColor : ℚ) :
    Except String RenderResults :=
  if cuda_ray then
    Except.ok (run_cuda training kRgb kSem near far bg_radius bg_color bgModelColor)
  else Except.error attributeErrorMsg

/-- `NeRFRenderer.render`, lines 507-546.  `_run` is hard-wired to
`run_cuda` (line 515; the `self.run` fallback is commented out).  The
staged branch (lines 522-541) is taken only when `staged` and not
`cuda_ray`; its first chunk call (`B > 0` rays batches and `N > 0` rays)
raises `typeErrorMsg` because `semantic_class_length` is not passed (see
`typeErrorMsg`); with an empty batch the chunk loops never execute and the
preallocated (empty) buffers are returned.  The unstaged branch forwards
to `run_cuda` with all arguments.  `max_ray_batch` only controls chunk
extents and is never reached before the error. -/
def render (cuda_ray staged training : Bool) (B N max_ray_batch : ℕ)
    (kRgb kSem : RayKernelOut) (near far bg_radius : ℚ)
    (bg_color : Option ℚ) (bgModelColor : ℚ) : Except String RenderResults :=
  if staged && !cuda_ray then
    if 0 < B ∧ 0 < N then Except.error typeErrorMsg
    else Except.ok emptyResults
  else run_cuda_checked cuda_ray training kRgb kSem near far bg_radius bg_color bgModelColor

/-- Per-round step count of the inference marcher, `renderer.py` lines
201 and 300: `n_step = max(min(N // n_alive, 8), 1)` (Python `//` is
`Nat` division here since both operands are nonnegative). -/
def n_step (N n_alive : ℕ) : ℕ :=
  max (min (N / n_alive) 8) 1

/-- Modelled from the spec (section 4.4): `clamp(v, lo, hi)`, the value
`v` saturated into the interval `[lo, hi]`. -/
def clamp_spec (v lo hi : ℕ) : ℕ :=
  min (max v lo) hi

/-- State of the inference marching loop: the compacted `rays_alive`
index array and the accumulated step counter `step`. -/
structure MarchLoopState where
  alive : List Int
  step : ℕ

/-- The inference round loop of `rays_rgb` / `rays_semantic`
(`renderer.py` lines 189-215 and 288-313): while `step < max_steps`,
recount the alive rays, exit if none are left, march/evaluate/composite
(the external-kernel round body, abstracted as `body`, which writes a
negative index into the slot of every ray that terminated this round),
compact with `rays_alive = rays_alive[rays_alive >= 0]`, and advance
`step` by `n_step`.  Returns the final state and the number of rounds
executed. -/
def marchRounds (N max_steps : ℕ) (body : ℕ → List Int → List Int)
    (round : ℕ) (s : MarchLoopState) : MarchLoopState × ℕ :=
  if h : s.step < max_steps then
    if s.alive.length = 0 then (s, 0)
    else
      ((marchRounds N max_steps body (round + 1)
          ⟨(body round s.alive).filter (fun x => decide (0 ≤ x)),
           s.step + n_step N s.alive.length⟩).1,
       (marchRounds N max_steps body (round + 1)
          ⟨(body round s.alive).filter (fun x => decide (0 ≤ x)),
           s.step + n_step N s.alive.length⟩).2 + 1)
  else (s, 0)
termination_by max_steps - s.step
decreasing_by
  all_goals
    have h1 : 1 ≤ n_step N s.alive.length := Nat.le_max_right _ _
    omega

/-- The validity mask of the grid update, `renderer.py` line 488:
`valid_mask = (self.density_grid >= 0) & (tmp_grid >= 0)`. -/
def validMask (n : ℕ) (density_grid tmp_grid : Fin n → ℚ) : Fin n → Bool :=
  fun i => decide (0 ≤ density_grid i) && decide (0 ≤ tmp_grid i)

/-- The masked exponential-moving-maximum assignment, `renderer.py` line
489: `self.density_grid[valid_mask] =
torch.maximum(self.density_grid[valid_mask] * decay, tmp_grid[valid_mask])`;
cells outside the mask keep their value. -/
def emaUpdate (n : ℕ) (density_grid tmp_grid : Fin n → ℚ) (decay : ℚ) :
    Fin n → ℚ :=
  fun i =>
    if validMask n density_grid tmp_grid i then
      max (density_grid i * decay) (tmp_grid i)
    else density_grid i

/-- State touched by `update_extra_state` that the claims are about: the
dense density grid, its clamped mean, and the packed occupancy bitfield
(one Bool per cell; byte packing is irrelevant to the properties). -/
structure GridState (n : ℕ) where
  density_grid : Fin n → ℚ
  mean_density : ℚ
  density_bitfield : Fin n → Bool

/-- `NeRFRenderer.update_extra_state`, lines 410-502, as a function of
the freshly evaluated density estimates `tmp_grid` (the source builds
`tmp_grid` from field queries — full sweep or random subsampling — over
the external `raymarching.morton3D` indexer, initializing unqueried cells
to `-1`; the claims quantify over the resulting `tmp_grid`, so it is a
parameter here).  After the masked EMA assignment (line 489) the source
recomputes `mean_density = mean(density_grid.clamp(min=0))` (line 490),
takes `density_thresh = min(mean_density, self.density_thresh)` (line
495) and rebuilds the bitfield (line 496).  The bit itself is modelled
from the spec (section 4.6): `raymarching.packbits` is not under `src/`;
the spec states the bitfield is rebuilt from `grid >= threshold`.  The
step-counter bookkeeping of lines 498-502 touches neither the grid nor
the bitfield and is omitted. -/
def update_extra_state (n : ℕ) (density_grid tmp_grid : Fin n → ℚ)
    (decay density_thresh : ℚ) : GridState n :=
  let grid2 := emaUpdate n density_grid tmp_grid decay
  let mean_density := (∑ i, max (grid2 i) 0) / (n : ℚ)
  let thresh := min mean_density density_thresh
  ⟨grid2, mean_density, fun i => decide (thresh ≤ grid2 i)⟩

/-! ### Helper lemmas -/

/-- Pointwise description of the masked EMA assignment. -/
theorem emaUpdate_apply (n : ℕ) (g t : Fin n → ℚ) (decay : ℚ) (i : Fin n) :
    emaUpdate n g t decay i =
      if 0 ≤ g i ∧ 0 ≤ t i then max (g i * decay) (t i) else g i := by
  simp [emaUpdate, validMask, Bool.and_eq_true, decide_eq_true_eq]

/-- With `decay = 1`, applying the masked EMA assignment twice with the
same fresh estimates gives the same grid as applying it once. -/
theorem emaUpdate_one_idem (n : ℕ) (g t : Fin n → ℚ) :
    emaUpdate n (emaUpdate n g t 1) t 1 = emaUpdate n g t 1 := by
  funext i
  rw [emaUpdate_apply, emaUpdate_apply]
  by_cases h : 0 ≤ g i ∧ 0 ≤ t i
  · simp only [if_pos h, mul_one]
    have h1 : 0 ≤ max (g i) (t i) := le_trans h.2 (le_max_right _ _)
    rw [if_pos ⟨h1, h.2⟩, max_assoc, max_self]
  · simp only [if_neg h]

/-- Round-count bound and exit condition for the marching loop, proved by
induction on remaining fuel `max_steps - s.step`. -/
theorem marchRounds_bound (N max_steps : ℕ) (body : ℕ → List Int → List Int) :
    ∀ fuel round (s : MarchLoopState), max_steps - s.step ≤ fuel →
      (marchRounds N max_steps body round s).2 ≤ max_steps - s.step ∧
      ((marchRounds N max_steps body round s).1.alive = [] ∨
        max_steps ≤ (marchRounds N max_steps body round s).1.step) := by
  intro fuel
  induction fuel with
  | zero =>
    intro round s hs
    have hstep : ¬ s.step < max_steps := by omega
    rw [marchRounds, dif_neg hstep]
    exact ⟨Nat.zero_le _, Or.inr (show max_steps ≤ s.step by omega)⟩
  | succ m ih =>
    intro round s hs
    by_cases h : s.step < max_steps
    · by_cases ha : s.alive.length = 0
      · rw [marchRounds, dif_pos h, if_pos ha]
        exact ⟨Nat.zero_le _, Or.inl (List.length_eq_zero.mp ha)⟩
      · have h1 : 1 ≤ n_step N s.alive.length := Nat.le_max_right _ _
        have hrec := ih (round + 1)
          ⟨(body round s.alive).filter (fun x => decide (0 ≤ x)),
           s.step + n_step N s.alive.length⟩
          (show max_steps - (s.step + n_step N s.alive.length) ≤ m by omega)
        rw [marchRounds, dif_pos h, if_neg ha]
        refine ⟨?_, hrec.2⟩
        have h2 : (marchRounds N max_steps body (round + 1)
            ⟨(body round s.alive).filter (fun x => decide (0 ≤ x)),
             s.step + n_step N s.alive.length⟩).2 ≤
            max_steps - (s.step + n_step N s.alive.length) := hrec.1
        show (marchRounds N max_steps body (round + 1)
            ⟨(body round s.alive).filter (fun x => decide (0 ≤ x)),
             s.step + n_step N s.alive.length⟩).2 + 1 ≤ max_steps - s.step
        omega
    · rw [marchRounds, dif_neg h]
      exact ⟨Nat.zero_le _, Or.inr (show max_steps ≤ s.step by omega)⟩

/-! ### Claim theorems -/

/-- C1: the claim states that depth normalization guards the
zero-denominator case and returns exactly 0 when `far == near`.  The
source (lines 167, 219, 265, 318) divides by `(fars - nears)` with no
guard: for a degenerate ray with `near = far = 2` and accumulated depth
`0`, the float result is `0/0 = NaN` (embedded as `none`), not `0`. -/
theorem normalizeDepth_unguarded_at_far_eq_near : normalizeDepth 0 2 2 = none := by
  simp [normalizeDepth]

/-- A compositing-kernel output used only to instantiate the staged
`render` call of C2 (its value is irrelevant: the error fires before any
kernel runs). -/
def kZero : RayKernelOut := ⟨0, 0, []⟩

/-- C2: the claim states the staged/max_ray_batch path of `render`
produces the same outputs as an unchunked call.  On the code the staged
path (taken only when `staged` and not `cuda_ray`, line 522) crashes on
its first chunk: line 532 calls `run_cuda` without the required
`semantic_class_length` argument.  Evaluated here at a batch of `B = 1`,
`N = 2` rays with `max_ray_batch = 4096`: the staged render raises
instead of returning results. -/
theorem render_staged_path_raises :
    render false true false 1 2 4096 kZero kZero (1/5) 1 (-1) none 1 =
      Except.error typeErrorMsg := by
  rfl

/-- C3: the semantic (class-probability) output is never
background-composited: in both the training and the inference path the
returned semantic vector is the raw accumulated channel sum, with no
`(1 - weight_sum) * background` term — unlike the RGB channel, whose
output does receive that term (third conjunct). -/
theorem rays_semantic_no_background (k : RayKernelOut) (near far bg_radius : ℚ)
    (bg_color : Option ℚ) (bgModelColor : ℚ) :
    (raysSemanticPostTrain k near far bg_radius bg_color bgModelColor).2 = k.channels ∧
    (raysSemanticPostInfer k near far bg_radius bg_color bgModelColor).2 = k.channels ∧
    (raysRgbPostTrain k near far bg_radius bg_color bgModelColor).2 =
      k.channels.map (fun c => c + (1 - k.ws) * bgColorFinal bg_radius bg_color bgModelColor) :=
  ⟨rfl, rfl, rfl⟩

/-- C4: in both RGB paths the final image is
`channel_sum + (1 - weight_sum) * background_value`, and when no
background model is configured (`bg_radius ≤ 0`) and no `bg_color`
argument is supplied (`none`), the background value is the default `1`. -/
theorem rays_rgb_background_default (k : RayKernelOut)
    (near far bg_radius bgModelColor : ℚ) (h : bg_radius ≤ 0) :
    (raysRgbPostTrain k near far bg_radius none bgModelColor).2 =
      k.channels.map (fun c => c + (1 - k.ws) * 1) ∧
    (raysRgbPostInfer k near far bg_radius none bgModelColor).2 =
      k.channels.map (fun c => c + (1 - k.ws) * 1) := by
  have hbg : bgColorFinal bg_radius none bgModelColor = 1 := by
    rw [bgColorFinal, if_neg (not_lt.mpr h)]
    rfl
  constructor <;> simp [raysRgbPostTrain, raysRgbPostInfer, hbg]

/-- A concrete compositing-kernel output for the C4 witness. -/
def kC4 : RayKernelOut := ⟨1/2, 3, [2, 4]⟩

/-- C4 witness: the hypothesis `bg_radius ≤ 0` holds at `bg_radius = -1`,
and the theorem applies to a concrete kernel output. -/
theorem rays_rgb_background_default_witness :
    ((-1 : ℚ) ≤ 0) ∧
    ((raysRgbPostTrain kC4 1 3 (-1) none 7).2 =
        kC4.channels.map (fun c => c + (1 - kC4.ws) * 1) ∧
      (raysRgbPostInfer kC4 1 3 (-1) none 7).2 =
        kC4.channels.map (fun c => c + (1 - kC4.ws) * 1)) :=
  ⟨by norm_num, rays_rgb_background_default kC4 1 3 (-1) 7 (by norm_num)⟩

/-- C5: each grid update writes `max(old * decay, fresh)` to exactly the
voxels where both the stored estimate and the fresh estimate are valid
(`≥ 0`); every other voxel keeps its stored value. -/
theorem update_extra_state_grid_rule (n : ℕ) (density_grid tmp_grid : Fin n → ℚ)
    (decay density_thresh : ℚ) (i : Fin n) :
    (update_extra_state n density_grid tmp_grid decay density_thresh).density_grid i =
      if 0 ≤ density_grid i ∧ 0 ≤ tmp_grid i then
        max (density_grid i * decay) (tmp_grid i)
      else density_grid i := by
  show emaUpdate n density_grid tmp_grid decay i = _
  exact emaUpdate_apply n density_grid tmp_grid decay i

/-- C6: a density-grid cell stored as `-1` (marked never-visible by
`mark_untrained_grid`) is never mutated by `update_extra_state`: its
validity mask requires the stored value to be `≥ 0`. -/
theorem update_extra_state_preserves_untrained (n : ℕ)
    (density_grid tmp_grid : Fin n → ℚ) (decay density_thresh : ℚ) (i : Fin n)
    (h : density_grid i = -1) :
    (update_extra_state n density_grid tmp_grid decay density_thresh).density_grid i
      = -1 := by
  show emaUpdate n density_grid tmp_grid decay i = -1
  rw [emaUpdate_apply, if_neg]
  · exact h
  · intro hc
    rw [h] at hc
    exact absurd hc.1 (by norm_num)

/-- C6 witness: a two-cell grid whose cell `0` holds `-1` still holds
`-1` after an update with fresh estimate `5`. -/
theorem update_extra_state_preserves_untrained_witness :
    ((fun _ : Fin 2 => (-1 : ℚ)) 0 = -1) ∧
    (update_extra_state 2 (fun _ => (-1 : ℚ)) (fun _ => 5) (19/20) (1/100)).density_grid 0
      = -1 :=
  ⟨rfl,
   update_extra_state_preserves_untrained 2 (fun _ => (-1 : ℚ)) (fun _ => 5)
     (19/20) (1/100) 0 rfl⟩

/-- C7: with `decay = 1` and identical fresh density estimates, running
`update_extra_state` a second time yields the same bitfield as running it
once (the grid is unchanged, hence so are the clamped mean, the threshold
`min(mean, density_thresh)`, and the rebuilt bitfield). -/
theorem update_extra_state_bitfield_idempotent (n : ℕ)
    (density_grid tmp_grid : Fin n → ℚ) (density_thresh : ℚ) :
    (update_extra_state n
        (update_extra_state n density_grid tmp_grid 1 density_thresh).density_grid
        tmp_grid 1 density_thresh).density_bitfield =
      (update_extra_state n density_grid tmp_grid 1 density_thresh).density_bitfield := by
  have hg : emaUpdate n (emaUpdate n density_grid tmp_grid 1) tmp_grid 1 =
      emaUpdate n density_grid tmp_grid 1 := emaUpdate_one_idem n density_grid tmp_grid
  simp only [update_extra_state, hg]

/-- C8: the per-round step count of the inference marcher,
`max(min(N // n_alive, 8), 1)`, equals `clamp(N / n_alive, 1, 8)` and
always lies in `[1, 8]` when `n_alive > 0`.  (`marchRounds` computes
exactly `n_step N s.alive.length` each round.) -/
theorem n_step_eq_clamp (N n_alive : ℕ) (h : 0 < n_alive) :
    n_step N n_alive = clamp_spec (N / n_alive) 1 8 ∧
    1 ≤ n_step N n_alive ∧ n_step N n_alive ≤ 8 := by
  unfold n_step clamp_spec
  generalize N / n_alive = q
  omega

/-- C8 witness: at `N = 100` total rays and `n_alive = 7`. -/
theorem n_step_eq_clamp_witness :
    0 < 7 ∧ (n_step 100 7 = clamp_spec (100 / 7) 1 8 ∧
      1 ≤ n_step 100 7 ∧ n_step 100 7 ≤ 8) :=
  ⟨by decide, n_step_eq_clamp 100 7 (by decide)⟩

/-- C9: the inference marching loop always terminates (it is a total
function here, by well-founded recursion on `max_steps - step`, which is
exactly the source's argument: every round advances `step` by
`n_step ≥ 1`), the number of rounds it executes is at most `max_steps`,
and on exit either the alive set is empty or the step counter has
reached `max_steps` — for every round body, ray count and initial alive
set. -/
theorem inference_loop_terminates (N max_steps : ℕ)
    (body : ℕ → List Int → List Int) (alive0 : List Int) :
    (marchRounds N max_steps body 0 ⟨alive0, 0⟩).2 ≤ max_steps ∧
    ((marchRounds N max_steps body 0 ⟨alive0, 0⟩).1.alive = [] ∨
      max_steps ≤ (marchRounds N max_steps body 0 ⟨alive0, 0⟩).1.step) := by
  have h := marchRounds_bound N max_steps body max_steps 0 ⟨alive0, 0⟩
    (show max_steps - 0 ≤ max_steps by omega)
  exact ⟨h.1, h.2⟩

/-- C10: `run_cuda` runs the RGB pass first and the semantic pass second;
both write the `depth` key, so the returned depth is always the one the
semantic pass computed (the right-hand side mentions only `kSem`, never
`kRgb`), while the RGB pass's own depth write (second conjunct) is
overwritten and never observable in the result. -/
theorem run_cuda_depth_overwritten (training : Bool) (kRgb kSem : RayKernelOut)
    (near far bg_radius : ℚ) (bg_color : Option ℚ) (bgModelColor : ℚ) :
    (run_cuda training kRgb kSem near far bg_radius bg_color bgModelColor).depth =
      some (normalizeDepth kSem.depthSum near far) ∧
    (rays_rgb training emptyResults kRgb near far bg_radius bg_color bgModelColor).depth =
      some (normalizeDepth kRgb.depthSum near far) := by
  cases training <;> exact ⟨rfl, rfl⟩

end SemanticTorchNgp
